import Mathlib

/-!
Shallow embedding of the SERCOM UART pad-binding and routing-code
derivation engine from `hal/src/sercom/uart/pads_thumbv7em.rs`.

The source enforces the pad rules with type-level traits; here each trait
is rendered as an executable function over the pad-slot data the traits
dispatch on.  Physical pins are abstracted to the pad slot their catalog
entry resolves to (`GetPad`/`IoSet` live outside the binding engine and
only ever produce a `PadNum`), so every builder method that takes a pin in
the source takes the pin's pad slot here.
-/

namespace AtsamdUart

/-- The four SERCOM pad positions (`Pad0`..`Pad3` in the source). -/
inductive PadNum : Type
  | pad0
  | pad1
  | pad2
  | pad3
deriving DecidableEq, Repr, Fintype

/-- Numeric index of a pad slot. -/
def padIdx : PadNum → Nat
  | .pad0 => 0
  | .pad1 => 1
  | .pad2 => 2
  | .pad3 => 3

/-- The `Rxpo` helper trait: RXPO value of an optional RX pad.
Mirrors the five `impl Rxpo` blocks (`NoneT`, `Pad0`..`Pad3`). -/
def rxpo : Option PadNum → Nat
  | none => 0
  | some .pad0 => 0
  | some .pad1 => 1
  | some .pad2 => 2
  | some .pad3 => 3

/-- The `OptionalPad0` marker trait: implemented for `NoneT` and `Pad0` only. -/
def optionalPad0 : Option PadNum → Bool
  | none => true
  | some .pad0 => true
  | some .pad1 => false
  | some .pad2 => false
  | some .pad3 => false

/-- The `NotPad0` marker trait: implemented for `Pad1`, `Pad2`, `Pad3`. -/
def notPad0 : PadNum → Bool
  | .pad0 => false
  | .pad1 => true
  | .pad2 => true
  | .pad3 => true

/-- The `Txpo` helper trait over (TX pad, RTS pad, CTS pad).
The source has exactly three impl blocks, each generic over
`TX: OptionalPad0`:
`(TX, NoneT, NoneT) => 0`, `(TX, Pad2, Pad3) => 2`, `(TX, Pad2, NoneT) => 3`;
every other triple has no impl, i.e. no TXPO value. -/
def txpo : Option PadNum → Option PadNum → Option PadNum → Option Nat
  | tx, none, none => if optionalPad0 tx then some 0 else none
  | tx, some .pad2, some .pad3 => if optionalPad0 tx then some 2 else none
  | tx, some .pad2, none => if optionalPad0 tx then some 3 else none
  | _, _, _ => none

/-- The `IoPads` data-role configurations (`Empty`, `RxSimplex`, `TxSimplex`,
`HalfDuplex`, `FullDuplex`), pins abstracted to their pad slots. -/
inductive IoPads : Type
  | empty
  | rxSimplex (receive : PadNum)
  | txSimplex (transmit : PadNum)
  | halfDuplex (io : PadNum)
  | fullDuplex (receive transmit : PadNum)
deriving DecidableEq, Repr, Fintype

/-- The `IoPads::RX` associated type: the pad slot feeding the receiver. -/
def rxSlotOf : IoPads → Option PadNum
  | .empty => none
  | .rxSimplex rx => some rx
  | .txSimplex _ => none
  | .halfDuplex io => some io
  | .fullDuplex rx _ => some rx

/-- The `IoPads::TX` associated type: the pad slot feeding the transmitter. -/
def txSlotOf : IoPads → Option PadNum
  | .empty => none
  | .rxSimplex _ => none
  | .txSimplex tx => some tx
  | .halfDuplex io => some io
  | .fullDuplex _ tx => some tx

/-- The `Pads` container: data-role configuration plus optional RTS/CTS pads
(`io_pads`, `ready_to_send`, `clear_to_send`). -/
structure Pads : Type where
  ioPads : IoPads
  readyToSend : Option PadNum
  clearToSend : Option PadNum
deriving DecidableEq, Repr, Fintype

/-- `Pads::default`: empty configuration, no flow control. -/
def Pads.default : Pads := ⟨.empty, none, none⟩

/-- `Pads::rts`: records the RTS pin's pad slot.  The source method accepts
any pin of the io-set and stores it as-is; no slot check happens at bind
time. -/
def Pads.rts (p : Pads) (pad : PadNum) : Pads :=
  { p with readyToSend := some pad }

/-- `Pads::cts`: records the CTS pin's pad slot, unchecked at bind time. -/
def Pads.cts (p : Pads) (pad : PadNum) : Pads :=
  { p with clearToSend := some pad }

/-- `Pads::rx`: defined on `Empty` (giving `RxSimplex`) and on `TxSimplex`
(giving `FullDuplex`); no other receiver-state admits it. -/
def Pads.rx (p : Pads) (pad : PadNum) : Option Pads :=
  match p.ioPads with
  | .empty => some { p with ioPads := .rxSimplex pad }
  | .txSimplex tx => some { p with ioPads := .fullDuplex pad tx }
  | _ => none

/-- `Pads::tx`: defined on `Empty` (giving `TxSimplex`) and on `RxSimplex`
(giving `FullDuplex`). -/
def Pads.tx (p : Pads) (pad : PadNum) : Option Pads :=
  match p.ioPads with
  | .empty => some { p with ioPads := .txSimplex pad }
  | .rxSimplex rx => some { p with ioPads := .fullDuplex rx pad }
  | _ => none

/-- `Pads::io`: defined on `Empty` only, giving `HalfDuplex`. -/
def Pads.io (p : Pads) (pad : PadNum) : Option Pads :=
  match p.ioPads with
  | .empty => some { p with ioPads := .halfDuplex pad }
  | _ => none

/-- The four `RxpoTxpo` impl blocks, one per data-role shape:
* `FullDuplex`: RX must satisfy `Rxpo + NotPad0`; TXPO of (TX, RTS, CTS);
* `HalfDuplex`: the IO pad feeds both RXPO and the TX position of TXPO;
* `RxSimplex`: RXPO from RX, TXPO of (`NoneT`, RTS, CTS);
* `TxSimplex`: RXPO of `NoneT` (= 0), TXPO of (TX, RTS, CTS);
`Empty` has no impl. -/
def rxpoTxpo : Pads → Option (Nat × Nat)
  | ⟨.fullDuplex rx tx, rtsP, ctsP⟩ =>
    if notPad0 rx then
      (txpo (some tx) rtsP ctsP).map (fun t => (rxpo (some rx), t))
    else none
  | ⟨.halfDuplex ioP, rtsP, ctsP⟩ =>
    (txpo (some ioP) rtsP ctsP).map (fun t => (rxpo (some ioP), t))
  | ⟨.rxSimplex rx, rtsP, ctsP⟩ =>
    (txpo none rtsP ctsP).map (fun t => (rxpo (some rx), t))
  | ⟨.txSimplex tx, rtsP, ctsP⟩ =>
    (txpo (some tx) rtsP ctsP).map (fun t => (rxpo none, t))
  | ⟨.empty, _, _⟩ => none

/-- Capability associated type values: `Rx`, `Tx`, `Duplex` in the source
(ReceiveOnly, TransmitOnly, FullDuplex in the spec's vocabulary). -/
inductive Capability : Type
  | rx
  | tx
  | duplex
deriving DecidableEq, Repr, Fintype

/-- The `ValidPads` impl blocks, shape part: `RxSimplex` requires
`CTS = NoneT`, `TxSimplex` requires `RTS = NoneT`, `FullDuplex` and
`HalfDuplex` allow both; `Empty` has no impl. -/
def capabilityOf : Pads → Option Capability
  | ⟨.rxSimplex _, _, none⟩ => some .rx
  | ⟨.txSimplex _, none, _⟩ => some .tx
  | ⟨.fullDuplex _ _, _, _⟩ => some .duplex
  | ⟨.halfDuplex _, _, _⟩ => some .duplex
  | _ => none

/-- Error taxonomy of the runtime rendering (spec §7).  The source rejects
these situations at compile time; the names are the spec's labels for the
same rejections. -/
inductive BindError : Type
  | incompatiblePin
  | roleAlreadyBound
  | noDataRole
  | illegalRoutingCombination
deriving DecidableEq, Repr

/-- A finalized configuration: the pad assignment plus its derived
capability and `RXPO`/`TXPO` constants. -/
structure Configuration : Type where
  pads : Pads
  capability : Capability
  RXPO : Nat
  TXPO : Nat
deriving DecidableEq, Repr

instance : DecidableEq (Except BindError Configuration) := fun a b =>
  match a, b with
  | .ok x, .ok y =>
    match decEq x y with
    | isTrue h => isTrue (by rw [h])
    | isFalse h => isFalse (fun he => h (Except.ok.inj he))
  | .error x, .error y =>
    match decEq x y with
    | isTrue h => isTrue (by rw [h])
    | isFalse h => isFalse (fun he => h (Except.error.inj he))
  | .ok _, .error _ => isFalse (fun he => Except.noConfusion he)
  | .error _, .ok _ => isFalse (fun he => Except.noConfusion he)

/-- Finalization: a `Config` demands `ValidPads`, i.e. the shape/flow
constraints (capability) together with an `RxpoTxpo` impl.  An `Empty`
configuration has no data role (`NoDataRole`); any other failed
resolution is a rejected routing combination. -/
def finalize (p : Pads) : Except BindError Configuration :=
  match capabilityOf p with
  | none =>
    match p.ioPads with
    | .empty => .error .noDataRole
    | _ => .error .illegalRoutingCombination
  | some c =>
    match rxpoTxpo p with
    | none => .error .illegalRoutingCombination
    | some (r, t) => .ok ⟨p, c, r, t⟩

/-- Rx data role bound (`RxSimplex` or `FullDuplex`). -/
def rxBound : IoPads → Bool
  | .rxSimplex _ => true
  | .fullDuplex _ _ => true
  | _ => false

/-- Tx data role bound (`TxSimplex` or `FullDuplex`). -/
def txBound : IoPads → Bool
  | .txSimplex _ => true
  | .fullDuplex _ _ => true
  | _ => false

/-- Half-duplex IO role bound. -/
def ioBound : IoPads → Bool
  | .halfDuplex _ => true
  | _ => false

set_option maxRecDepth 8000

/-- C1 counterexample: the spec table's row (TX = slot 2, RTS unbound,
CTS unbound) is assigned TXPO = 3 by the spec, but the derivation has no
`Txpo` impl for `Pad2` as TX (`Pad2` is not `OptionalPad0`): the triple is
rejected, and a TX-only configuration on slot 2 fails finalization. -/
theorem specTableRowTx2Rejected :
    txpo (some PadNum.pad2) none none = none ∧
    finalize ⟨.txSimplex .pad2, none, none⟩ = .error .illegalRoutingCombination := by
  decide

/-- C1 (amended): of the spec's TXPO table rows, the derivation accepts
exactly those whose TX slot is 0 or unbound: (0 or -, -, -) gives 0,
(-, 2, 3) gives 2, (0, 2, 3) gives 2.  The rows (2, -, -) -> 3,
(-, -, 2) -> 3, (2, 3, -) -> 2 and (0, -, 3) -> 2 are rejected. -/
theorem txpoSpecTableRowsSettled :
    txpo none none none = some 0 ∧
    txpo (some PadNum.pad0) none none = some 0 ∧
    txpo none (some PadNum.pad2) (some PadNum.pad3) = some 2 ∧
    txpo (some PadNum.pad0) (some PadNum.pad2) (some PadNum.pad3) = some 2 ∧
    txpo (some PadNum.pad2) none none ≠ some 3 ∧
    txpo none none (some PadNum.pad2) = none ∧
    txpo (some PadNum.pad2) (some PadNum.pad3) none = none ∧
    txpo (some PadNum.pad0) none (some PadNum.pad3) = none := by
  decide

/-- C2 counterexample: the triple (TX = 0, RTS = 2, CTS unbound) is not a
row of the spec's table, yet the derivation accepts it with TXPO = 3, and
a full-duplex configuration carrying it finalizes successfully. -/
theorem tripleTx0Rts2ProducesTxpo3 :
    txpo (some PadNum.pad0) (some PadNum.pad2) none = some 3 ∧
    finalize ⟨.fullDuplex .pad1 .pad0, some .pad2, none⟩ =
      .ok ⟨⟨.fullDuplex .pad1 .pad0, some .pad2, none⟩, .duplex, 1, 3⟩ := by
  decide

/-- C2 (amended): the derivation accepts exactly the triples with TX slot
0 or unbound and (RTS, CTS) one of (unbound, unbound), (2, 3), (2, unbound);
every other triple produces no TXPO.  The scenario TX = 0, RTS = 2, CTS
unbound still fails as a TX-only configuration (TX-only forbids RTS), but
its triple is legal and yields TXPO = 3 in a full-duplex configuration. -/
theorem txpoLegalTriples :
    (∀ tx rtsP ctsP : Option PadNum,
      (txpo tx rtsP ctsP).isSome =
        (optionalPad0 tx &&
          ((rtsP == none && ctsP == none) ||
           (rtsP == some PadNum.pad2 && ctsP == some PadNum.pad3) ||
           (rtsP == some PadNum.pad2 && ctsP == none)))) ∧
    finalize ⟨.txSimplex .pad0, some .pad2, none⟩ =
      .error .illegalRoutingCombination := by
  decide

/-- C3 counterexample: binding Rx to slot 0 and Tx to slot 1 builds a
full-duplex configuration whose finalization fails (slot 0 is not
`NotPad0` for RX, and `Pad1` is not `OptionalPad0` for TX), instead of
succeeding with RXPO = 0, TXPO = 0 as claimed. -/
theorem fullDuplexRx0Tx1Fails :
    (Pads.default.rx PadNum.pad0 >>= (fun p => p.tx PadNum.pad1)) =
      some ⟨.fullDuplex .pad0 .pad1, none, none⟩ ∧
    finalize ⟨.fullDuplex .pad0 .pad1, none, none⟩ =
      .error .illegalRoutingCombination := by
  decide

/-- C3 (amended): with Rx on slot 1 and Tx on slot 0 and no flow control,
finalization succeeds with Capability = FullDuplex (`Duplex`), RXPO = 1
and TXPO = 0. -/
theorem fullDuplexRx1Tx0Succeeds :
    (Pads.default.rx PadNum.pad1 >>= (fun p => p.tx PadNum.pad0)) =
      some ⟨.fullDuplex .pad1 .pad0, none, none⟩ ∧
    finalize ⟨.fullDuplex .pad1 .pad0, none, none⟩ =
      .ok ⟨⟨.fullDuplex .pad1 .pad0, none, none⟩, .duplex, 1, 0⟩ := by
  decide

/-- C4: in every successfully finalized configuration, RXPO is 0 when no
Rx (or half-duplex IO) slot is bound and equals the bound slot's index
otherwise; in particular only-Rx-on-slot-2 finalizes with Capability
ReceiveOnly (`Capability.rx`), RXPO = 2 and TXPO = 0. -/
theorem finalizeRxpoFromRxSlot :
    (∀ p : Pads, (finalize p).isOk = true →
      (rxSlotOf p.ioPads = none →
        (finalize p).toOption.map Configuration.RXPO = some 0) ∧
      (∀ s : PadNum, rxSlotOf p.ioPads = some s →
        (finalize p).toOption.map Configuration.RXPO = some (padIdx s))) ∧
    Pads.default.rx PadNum.pad2 = some ⟨.rxSimplex .pad2, none, none⟩ ∧
    finalize ⟨.rxSimplex .pad2, none, none⟩ =
      .ok ⟨⟨.rxSimplex .pad2, none, none⟩, .rx, 2, 0⟩ := by
  decide

/-- C4 witness: the general statement applied to the Rx-on-slot-2
configuration. -/
theorem finalizeRxpoFromRxSlot_witness :
    (finalize ⟨.rxSimplex .pad2, none, none⟩).toOption.map Configuration.RXPO =
      some (padIdx .pad2) :=
  (finalizeRxpoFromRxSlot.1 ⟨.rxSimplex .pad2, none, none⟩ (by decide)).2
    .pad2 (by decide)

/-- C5: over successfully finalized configurations the capability is the
classifier of the role shape: Rx without Tx and without half-duplex IO
gives ReceiveOnly (`rx`), Tx without Rx gives TransmitOnly (`tx`), both
data roles or half-duplex IO give FullDuplex (`duplex`); and identical
assignments always yield identical Capability. -/
theorem capabilityClassifier :
    (∀ p : Pads, (finalize p).isOk = true →
      (rxBound p.ioPads = true → txBound p.ioPads = false →
        ioBound p.ioPads = false →
        (finalize p).toOption.map Configuration.capability = some Capability.rx) ∧
      (txBound p.ioPads = true → rxBound p.ioPads = false →
        (finalize p).toOption.map Configuration.capability = some Capability.tx) ∧
      (rxBound p.ioPads = true → txBound p.ioPads = true →
        (finalize p).toOption.map Configuration.capability = some Capability.duplex) ∧
      (ioBound p.ioPads = true →
        (finalize p).toOption.map Configuration.capability = some Capability.duplex)) ∧
    (∀ p q : Pads, p = q →
      (finalize p).toOption.map Configuration.capability =
        (finalize q).toOption.map Configuration.capability) := by
  refine ⟨by decide, ?_⟩
  intro p q h
  rw [h]

/-- C5 witness: the classifier cases applied to the Rx-on-slot-2
configuration and determinism applied to the default builder. -/
theorem capabilityClassifier_witness :
    (finalize ⟨.rxSimplex .pad2, none, none⟩).toOption.map
      Configuration.capability = some Capability.rx ∧
    (finalize Pads.default).toOption.map Configuration.capability =
      (finalize Pads.default).toOption.map Configuration.capability :=
  ⟨(capabilityClassifier.1 ⟨.rxSimplex .pad2, none, none⟩ (by decide)).1
      (by decide) (by decide) (by decide),
   capabilityClassifier.2 Pads.default Pads.default rfl⟩

/-- C6: finalizing a builder with no data role bound fails with
`NoDataRole`, whatever the RTS/CTS state. -/
theorem emptyFinalizeNoDataRole :
    ∀ rtsP ctsP : Option PadNum,
      finalize ⟨.empty, rtsP, ctsP⟩ = .error .noDataRole := by
  decide

/-- C7: starting from an empty data-role state, binding Rx to slot a then
Tx to slot b yields the same builder, and hence the same finalized
configuration, as binding Tx to b then Rx to a. -/
theorem bindOrderIndependence :
    ∀ a b : PadNum, ∀ rtsP ctsP : Option PadNum,
      (Pads.mk .empty rtsP ctsP).rx a >>= (fun p => p.tx b) =
        (Pads.mk .empty rtsP ctsP).tx b >>= (fun p => p.rx a) ∧
      ((Pads.mk .empty rtsP ctsP).rx a >>= (fun p => p.tx b)).map finalize =
        some (finalize ⟨.fullDuplex a b, rtsP, ctsP⟩) := by
  decide

/-- C8 counterexample: `rts` records a pin whose catalog slot is 1
verbatim — the bind neither rejects the pin nor assigns slot 2. -/
theorem rtsBindRecordsForeignSlot :
    Pads.default.rts PadNum.pad1 = ⟨.empty, some .pad1, none⟩ ∧
    (Pads.default.rts PadNum.pad1).readyToSend ≠ some PadNum.pad2 := by
  decide

/-- C8 (amended): the rts/cts binds record the pin's catalog slot without
checking it; the fixed-slot rule is enforced at finalization instead:
every configuration that finalizes successfully has RTS unbound or on
slot 2 and CTS unbound or on slot 3. -/
theorem flowControlSlotsAtFinalize :
    ∀ p : Pads, (finalize p).isOk = true →
      (p.readyToSend = none ∨ p.readyToSend = some PadNum.pad2) ∧
      (p.clearToSend = none ∨ p.clearToSend = some PadNum.pad3) := by
  decide

/-- C8 witness: the amended statement applied to a finalizable
full-duplex configuration with RTS on slot 2. -/
theorem flowControlSlotsAtFinalize_witness :
    ((⟨.fullDuplex .pad1 .pad0, some .pad2, none⟩ : Pads).readyToSend = none ∨
     (⟨.fullDuplex .pad1 .pad0, some .pad2, none⟩ : Pads).readyToSend =
       some PadNum.pad2) ∧
    ((⟨.fullDuplex .pad1 .pad0, some .pad2, none⟩ : Pads).clearToSend = none ∨
     (⟨.fullDuplex .pad1 .pad0, some .pad2, none⟩ : Pads).clearToSend =
       some PadNum.pad3) :=
  flowControlSlotsAtFinalize ⟨.fullDuplex .pad1 .pad0, some .pad2, none⟩
    (by decide)

/-- C9 counterexample: a full-duplex configuration with Rx on slot 2, Tx
on slot 0, RTS on slot 2 and CTS on slot 3 finalizes successfully, yet
its Rx slot equals its RTS slot and it is not half-duplex: two roles
occupy pad slot 2 in a valid configuration. -/
theorem validConfigSharesSlot :
    finalize ⟨.fullDuplex .pad2 .pad0, some .pad2, some .pad3⟩ =
      .ok ⟨⟨.fullDuplex .pad2 .pad0, some .pad2, some .pad3⟩, .duplex, 2, 2⟩ ∧
    rxSlotOf (IoPads.fullDuplex .pad2 .pad0) =
      (⟨.fullDuplex .pad2 .pad0, some .pad2, some .pad3⟩ : Pads).readyToSend ∧
    ioBound (IoPads.fullDuplex .pad2 .pad0) = false := by
  decide

/-- C9 (amended): binding Rx and Tx to the same slot through the two-step
path (either order) never yields a configuration that finalizes, and in
every successfully finalized full-duplex configuration the Rx and Tx
slots differ; the one-role-per-slot invariant holds for the data roles
only — a flow-control role may share a slot with Rx. -/
theorem dataRolesDistinctSlots :
    (∀ s : PadNum, ∀ rtsP ctsP : Option PadNum,
      ((Pads.mk .empty rtsP ctsP).rx s >>= (fun q => q.tx s)).map
        (fun p => (finalize p).isOk) = some false) ∧
    (∀ s : PadNum, ∀ rtsP ctsP : Option PadNum,
      ((Pads.mk .empty rtsP ctsP).tx s >>= (fun q => q.rx s)).map
        (fun p => (finalize p).isOk) = some false) ∧
    (∀ p : Pads, (finalize p).isOk = true → ∀ rx tx : PadNum,
      p.ioPads = .fullDuplex rx tx → rx ≠ tx) := by
  decide

/-- C9 witness: the distinct-slots clause applied to the finalizable
full-duplex configuration with Rx on slot 1 and Tx on slot 0. -/
theorem dataRolesDistinctSlots_witness : PadNum.pad1 ≠ PadNum.pad0 :=
  dataRolesDistinctSlots.2.2 ⟨.fullDuplex .pad1 .pad0, none, none⟩
    (by decide) .pad1 .pad0 (by decide)

/-- C10: whenever the routing derivation succeeds, the bound Tx slot (or
the half-duplex IO slot standing in for Tx) is slot 0, and in a
full-duplex configuration the Rx slot is never slot 0. -/
theorem txAlwaysOnPad0 :
    ∀ p : Pads, (rxpoTxpo p).isSome = true →
      (∀ s : PadNum, txSlotOf p.ioPads = some s → s = PadNum.pad0) ∧
      (∀ rx tx : PadNum, p.ioPads = .fullDuplex rx tx → rx ≠ PadNum.pad0) := by
  decide

/-- C10 witness: the statement applied to a TX-only configuration on slot
0 and to a full-duplex configuration with Rx on slot 1. -/
theorem txAlwaysOnPad0_witness :
    PadNum.pad0 = PadNum.pad0 ∧ PadNum.pad1 ≠ PadNum.pad0 :=
  ⟨(txAlwaysOnPad0 ⟨.txSimplex .pad0, none, none⟩ (by decide)).1
      .pad0 (by decide),
   (txAlwaysOnPad0 ⟨.fullDuplex .pad1 .pad0, none, none⟩ (by decide)).2
      .pad1 .pad0 (by decide)⟩

end AtsamdUart
